import Mathlib

/-!
Shallow embedding of the vanna training-data store
(`src/vanna/pgvector/pgvector.py`) and the chat completion adapter
(`src/vanna/openai/openai_chat.py`), with theorems settling the
specification claims about them.

External collaborators (the embedding model, the PGVector similarity
index, the SQL engine, the completion API) are modelled as explicit
parameters or as pure state; Python library functions used by the code
(`json.dumps`, `ast.literal_eval`) are modelled faithfully on the
sublanguage of values this store reads and writes.
-/

namespace Vanna

/-- The opening brace character, kept as a named constant. -/
def lbrace : Char := Char.ofNat 123

/-- The closing brace character, kept as a named constant. -/
def rbrace : Char := Char.ofNat 125

/-- Python truthiness of an optional string argument: `None` and the
empty string are falsy, every other string is truthy.  This is the test
the source performs in `if sql and question:`, `if documentation:`,
`item.item_name and ...` and so on. -/
def truthy : Option String → Bool
  | none => false
  | some s => !(s == "")

/-- Python's slice `s[-n:]`: the last `n` characters of `s`, or all of
`s` when it is shorter than `n`. -/
def pyTakeRight (s : String) (n : Nat) : String :=
  String.mk (s.data.drop (s.data.length - n))

/-- SQL `id LIKE '%sfx'` match used by `remove_collection`: the id ends
with the literal suffix `sfx`.  Formulated through `pyTakeRight`, which
agrees with ends-with for a literal pattern (when `s` is shorter than
`sfx` the remaining characters cannot equal `sfx`). -/
def likeEndsWith (s sfx : String) : Bool :=
  pyTakeRight s sfx.data.length == sfx

/-- Modelled from the spec: `deterministic_uuid` lives in `vanna.utils`,
outside the provided sources; the spec requires only that it is a pure,
total, deterministic function from a content string to an identifier
string (`derive_id(content: string) -> string`, pure, total,
deterministic, no side effects).  Any Lean function is pure, total and
deterministic; the concrete hash value is irrelevant to the claims, so
we use a simple polynomial fingerprint of the content. -/
def deterministic_uuid (content : String) : String :=
  "uuid" ++ toString content.length ++ "x" ++
    toString (content.data.foldl (fun h c => (h * 31 + c.toNat) % 1000000007) 7)

/-! ### Model of `json.dumps` on the `{"question": ..., "sql": ...}` payload

`json.dumps(obj, ensure_ascii=False)` escapes `"` and `\`, writes the
control characters backspace, tab, newline, form feed and carriage
return as `\b`, `\t`, `\n`, `\f`, `\r`, writes every other character
below U+0020 as `\u00XX` with lowercase hex digits, and leaves every
other character (including non-ASCII) unescaped. -/

/-- Lowercase hexadecimal digit for `n < 16`. -/
def hexDigitChar (n : Nat) : Char :=
  if n < 10 then Char.ofNat (48 + n) else Char.ofNat (87 + n)

/-- The characters `json.dumps(..., ensure_ascii=False)` emits for one
source character inside a string. -/
def escapeJsonChar (c : Char) : List Char :=
  if c == '"' then ['\\', '"']
  else if c == '\\' then ['\\', '\\']
  else if c == '\n' then ['\\', 'n']
  else if c == '\r' then ['\\', 'r']
  else if c == '\t' then ['\\', 't']
  else if c.toNat == 8 then ['\\', 'b']
  else if c.toNat == 12 then ['\\', 'f']
  else if c.toNat < 32 then
    ['\\', 'u', '0', '0', hexDigitChar (c.toNat / 16), hexDigitChar (c.toNat % 16)]
  else [c]

/-- JSON encoding of a string: quote, escaped body, quote. -/
def encodeJsonString (s : String) : String :=
  "\"" ++ String.mk (s.data.map escapeJsonChar).flatten ++ "\""

/-- `json.dumps({"question": question, "sql": sql}, ensure_ascii=False)`:
Python dicts preserve insertion order and `json.dumps` uses the default
separators `", "` and `": "`; both keys and values go through the string
encoder. -/
def dumpsQuestionSql (question sql : String) : String :=
  String.mk ([lbrace] ++ (encodeJsonString "question").data ++ [':', ' '] ++
    (encodeJsonString question).data ++ [',', ' '] ++ (encodeJsonString "sql").data ++
    [':', ' '] ++ (encodeJsonString sql).data ++ [rbrace])

/-! ### Model of `ast.literal_eval` on the store's payload language

The store only ever reads payloads that are Python literals built from
string literals, integer literals and string-keyed dict literals; the
model parses exactly that sublanguage (a payload outside it is modelled
as a parse failure, the analogue of `ValueError`/`SyntaxError` from
`ast.literal_eval`).  CPython details modelled: single- or double-quoted
strings, the escape sequences `\\ \' \" \n \t \r \b \f \uXXXX` (an
unrecognized escape keeps the backslash, as in CPython), rejection of a
raw newline inside a string literal, optional sign on integers, and
whitespace between tokens. -/

/-- A Python literal value, as produced by `ast.literal_eval` on the
payload sublanguage described above. -/
inductive PyLit where
  | str : String → PyLit
  | int : Int → PyLit
  | dict : List (String × PyLit) → PyLit
deriving Repr

/-- ASCII whitespace accepted between tokens. -/
def isSpaceChar (c : Char) : Bool :=
  c == ' ' || c == '\t' || c == '\n' || c == '\r'

/-- Drop leading whitespace. -/
def skipSpaces (cs : List Char) : List Char :=
  cs.dropWhile isSpaceChar

/-- ASCII decimal digit test. -/
def isDigitChar (c : Char) : Bool :=
  '0' ≤ c && c ≤ '9'

/-- Value of one hexadecimal digit, lowercase or uppercase. -/
def hexVal (c : Char) : Option Nat :=
  if '0' ≤ c && c ≤ '9' then some (c.toNat - 48)
  else if 'a' ≤ c && c ≤ 'f' then some (c.toNat - 87)
  else if 'A' ≤ c && c ≤ 'F' then some (c.toNat - 55)
  else none

/-- Parse the remainder of one escape sequence (the input starts right
after the backslash); returns the decoded characters and the rest of
the input. -/
def parseEscape : List Char → Option (List Char × List Char)
  | [] => none
  | e :: rest =>
    if e == 'u' then
      match rest with
      | h₁ :: h₂ :: h₃ :: h₄ :: rest' =>
        match hexVal h₁, hexVal h₂, hexVal h₃, hexVal h₄ with
        | some a, some b, some c, some d =>
          some ([Char.ofNat (4096 * a + 256 * b + 16 * c + d)], rest')
        | _, _, _, _ => none
      | _ => none
    else if e == 'n' then some (['\n'], rest)
    else if e == 't' then some (['\t'], rest)
    else if e == 'r' then some (['\r'], rest)
    else if e == 'b' then some ([Char.ofNat 8], rest)
    else if e == 'f' then some ([Char.ofNat 12], rest)
    else if e == '\\' then some (['\\'], rest)
    else if e == '\'' then some (['\''], rest)
    else if e == '"' then some (['"'], rest)
    else some (['\\', e], rest)

/-- Parse the body of a string literal opened with quote character `q`,
up to and including the closing quote; fuel bounds the recursion (one
unit per decoded source character suffices). -/
def parseStrBody (q : Char) : Nat → List Char → Option (List Char × List Char)
  | 0, _ => none
  | _ + 1, [] => none
  | fuel + 1, c :: rest =>
    if c == q then some ([], rest)
    else if c == '\\' then
      match parseEscape rest with
      | some (out, rest') =>
        match parseStrBody q fuel rest' with
        | some (tl, rem) => some (out ++ tl, rem)
        | none => none
      | none => none
    else if c == '\n' || c == '\r' then none
    else
      match parseStrBody q fuel rest with
      | some (tl, rem) => some (c :: tl, rem)
      | none => none

/-- Numeric value of a digit string. -/
def digitsVal (ds : List Char) : Nat :=
  ds.foldl (fun a c => a * 10 + (c.toNat - 48)) 0

/-- Parse an integer literal with optional sign. -/
def parseIntLit (cs : List Char) : Option (Int × List Char) :=
  let signed : Bool × List Char :=
    match cs with
    | '-' :: t => (true, t)
    | '+' :: t => (false, t)
    | _ => (false, cs)
  let ds := signed.2.takeWhile isDigitChar
  if ds.isEmpty then none
  else
    some (if signed.1 then -(digitsVal ds : Int) else (digitsVal ds : Int),
      signed.2.dropWhile isDigitChar)

/-- Parse a scalar literal: a quoted string or an integer. -/
def parseScalar (cs : List Char) : Option (PyLit × List Char) :=
  match cs with
  | [] => none
  | c :: rest =>
    if c == '"' || c == '\'' then
      match parseStrBody c (rest.length + 1) rest with
      | some (body, rem) => some (.str (String.mk body), rem)
      | none => none
    else if c == '-' || c == '+' || isDigitChar c then
      match parseIntLit cs with
      | some (n, rem) => some (.int n, rem)
      | none => none
    else none

/-- Parse the entries of a nonempty dict literal (the input starts after
the opening brace, or after a separating comma), up to and including the
closing brace; fuel bounds the recursion (one unit per entry suffices). -/
def parseEntries : Nat → List Char → Option (List (String × PyLit) × List Char)
  | 0, _ => none
  | fuel + 1, cs =>
    match parseScalar (skipSpaces cs) with
    | some (.str key, rest) =>
      match skipSpaces rest with
      | ':' :: rest₂ =>
        match parseScalar (skipSpaces rest₂) with
        | some (v, rest₃) =>
          match skipSpaces rest₃ with
          | [] => none
          | c :: rest₄ =>
            if c == ',' then
              match parseEntries fuel rest₄ with
              | some (es, rem) => some ((key, v) :: es, rem)
              | none => none
            else if c == rbrace then some ([(key, v)], rest₄)
            else none
        | none => none
      | _ => none
    | _ => none

/-- Parse one literal: a dict, a string or an integer. -/
def parseLit (input : List Char) : Option (PyLit × List Char) :=
  match skipSpaces input with
  | [] => none
  | c :: rest =>
    if c == lbrace then
      match skipSpaces rest with
      | [] => none
      | c₂ :: rest₂ =>
        if c₂ == rbrace then some (.dict [], rest₂)
        else
          match parseEntries (c₂ :: rest₂).length (c₂ :: rest₂) with
          | some (es, rem) => some (.dict es, rem)
          | none => none
    else parseScalar (c :: rest)

/-- Model of `ast.literal_eval` on the payload sublanguage: parse one
literal and require only trailing whitespace after it. -/
def literalEval (s : String) : Option PyLit :=
  match parseLit s.data with
  | some (v, rest) => if (skipSpaces rest).isEmpty then some v else none
  | none => none

/-- Python `dict.get(k)` on a dict built from a literal: with duplicate
keys the later binding wins, a missing key gives `None`. -/
def pyDictGet (es : List (String × PyLit)) (k : String) : Option PyLit :=
  es.foldl (fun acc e => if e.1 == k then some e.2 else acc) none

/-! ### The PGVector collection layer

`PG_VectorStore` holds three `PGVector` collections (`sql`, `ddl`,
`documentation`).  A collection is modelled as the list of stored
documents; `add_documents(docs, ids=...)` with an explicit id upserts:
an existing document under the same id is replaced, otherwise the
document is appended. -/

/-- A stored langchain `Document`: page content plus its metadata id. -/
structure Document where
  page_content : String
  id : String
deriving Repr, DecidableEq

/-- `PGVector.add_documents([doc], ids=[id])`: keyed upsert into the
collection. -/
def addDocuments (coll : List Document) (doc : Document) : List Document :=
  if coll.any (fun d => d.id == doc.id) then
    coll.map (fun d => if d.id == doc.id then doc else d)
  else coll ++ [doc]

/-- The three collections of a `PG_VectorStore`. -/
structure Store where
  sql_collection : List Document
  ddl_collection : List Document
  documentation_collection : List Document
deriving Repr, DecidableEq

/-- `add_question_sql`: serialize the pair with `json.dumps`, derive the
id as `deterministic_uuid(payload) + "-sql"`, upsert into the `sql`
collection, return the id. -/
def add_question_sql (st : Store) (question sql : String) : String × Store :=
  let question_sql_json := dumpsQuestionSql question sql
  let _id := deterministic_uuid question_sql_json ++ "-sql"
  (_id, { st with sql_collection := addDocuments st.sql_collection ⟨question_sql_json, _id⟩ })

/-- `add_ddl`: id is `deterministic_uuid(ddl) + "-ddl"`, upsert into the
`ddl` collection, return the id. -/
def add_ddl (st : Store) (ddl : String) : String × Store :=
  let _id := deterministic_uuid ddl ++ "-ddl"
  (_id, { st with ddl_collection := addDocuments st.ddl_collection ⟨ddl, _id⟩ })

/-- `add_documentation`: id is `deterministic_uuid(text) + "-doc"`,
upsert into the `documentation` collection, return the id. -/
def add_documentation (st : Store) (doc : String) : String × Store :=
  let _id := deterministic_uuid doc ++ "-doc"
  (_id, { st with documentation_collection := addDocuments st.documentation_collection ⟨doc, _id⟩ })

/-- A handle to one of the three collections, as returned by
`get_collection`. -/
inductive CollectionHandle where
  | sql
  | ddl
  | doc
deriving Repr, DecidableEq

/-- The error raised by `get_collection` on an unknown name
(`ValueError("Specified collection does not exist.")` in the source; the
spec calls this kind `InvalidCollectionError`). -/
inductive CollectionError where
  | invalidCollection (msg : String)
deriving Repr, DecidableEq

/-- `get_collection`: pure routing from a collection name to its handle
(Python `match`/`case` on a string tests the cases for equality in
order); any name other than the three known ones raises. -/
def get_collection (collection_name : String) : Except CollectionError CollectionHandle :=
  if collection_name == "sql" then .ok .sql
  else if collection_name == "ddl" then .ok .ddl
  else if collection_name == "documentation" then .ok .doc
  else .error (.invalidCollection "Specified collection does not exist.")

/-- `get_similar_question_sql`: the external similarity search returns a
list of documents; each page content is decoded with
`ast.literal_eval`, and a decode failure raises out of the whole call
(the list comprehension propagates the exception). -/
def get_similar_question_sql (documents : List Document) : Except String (List PyLit) :=
  documents.foldr
    (fun d acc =>
      match literalEval d.page_content with
      | some v => match acc with
        | .ok vs => .ok (v :: vs)
        | .error e => .error e
      | none => .error ("malformed payload: " ++ d.page_content))
    (.ok [])

/-! ### Training plan and the `train` dispatcher

`TrainingPlan` and `TrainingPlanItem` come from `vanna.types`, outside
the provided sources.  Modelled from the spec: a plan is an ordered
sequence of items `{item_type: enum{DDL, IS(documentation), SQL},
item_name: optional string, item_value: string}`. -/

/-- The item type tags `ITEM_TYPE_DDL`, `ITEM_TYPE_IS` (documentation),
`ITEM_TYPE_SQL`. -/
inductive ItemType where
  | ddl
  | is
  | sql
deriving Repr, DecidableEq

/-- One training plan item. -/
structure TrainingPlanItem where
  item_type : ItemType
  item_name : Option String
  item_value : String
deriving Repr

/-- An ordered training plan (the `_plan` list). -/
structure TrainingPlan where
  _plan : List TrainingPlanItem
deriving Repr

/-- One iteration of the plan-replay loop in `train`: DDL items are
stored via `add_ddl`, IS items via `add_documentation`, SQL items with a
truthy `item_name` via `add_question_sql(question=item_name,
sql=item_value)`; any other item (in particular a SQL item with an
empty or missing name) is skipped. -/
def applyPlanItem (st : Store) (item : TrainingPlanItem) : Store :=
  match item.item_type with
  | .ddl => (add_ddl st item.item_value).2
  | .is => ( add_documentation st item.item_value).2
  | .sql =>
    if truthy item.item_name then
      (add_question_sql st (item.item_name.getD "") item.item_value).2
    else st

/-- The plan branch of `train`: one pass over the items. -/
def applyPlan (st : Store) (plan : TrainingPlan) : Store :=
  plan._plan.foldl applyPlanItem st

/-- The `ValidationError` raised by `train` on a question without SQL. -/
inductive TrainError where
  | validation (msg : String)
deriving Repr, DecidableEq

/-- `train(question?, sql?, ddl?, documentation?, plan?)`: the
convenience dispatcher.  `generate_question` (inherited from the LLM
mixin, an external collaborator) is passed in as `genQuestion`.  Python
tests each argument for truthiness, in the source's order; the result is
the returned id (if any) together with the updated store. -/
def train (genQuestion : String → String) (st : Store)
    (question sql ddl documentation : Option String)
    (plan : Option TrainingPlan) :
    Except TrainError (Option String × Store) :=
  if truthy sql && truthy question then
    let r := add_question_sql st (question.getD "") (sql.getD "")
    .ok (some r.1, r.2)
  else if truthy documentation then
    let r := add_documentation st ( documentation.getD "")
    .ok (some r.1, r.2)
  else if truthy sql then
    let q := genQuestion (sql.getD "")
    let r := add_question_sql st q (sql.getD "")
    .ok (some r.1, r.2)
  else if truthy ddl then
    let r := add_ddl st (ddl.getD "")
    .ok (some r.1, r.2)
  else if truthy question then
    .error (.validation "Please provide a SQL query.")
  else
    match plan with
    | some p => .ok (none, applyPlan st p)
    | none => .ok (none, st)

/-! ### The flat `langchain_pg_embedding` table

Bulk export and the delete operations bypass the collection API and work
directly on the backing table, whose rows carry `cmetadata ->> 'id'` and
`document`.  Whether the underlying `execute` fails is decided by the
external SQL engine; it enters the model as an explicit `fail` flag, and
on failure the transaction rolls back (the table is unchanged) and the
operation returns `False` instead of raising. -/

/-- One row of `langchain_pg_embedding`, as read by the bulk paths. -/
structure DbRow where
  cmetadata_id : String
  document : String
deriving Repr, DecidableEq

/-- `remove_training_data(id)`: `DELETE ... WHERE cmetadata ->> 'id' =
:id` inside a transaction; returns `rowcount > 0` on success, and
`False` with a rollback when the execute fails. -/
def remove_training_data (fail : Bool) (db : List DbRow) (id : String) :
    Bool × List DbRow :=
  if fail then (false, db)
  else
    (decide (0 < db.countP (fun r => r.cmetadata_id == id)),
      db.filter (fun r => !(r.cmetadata_id == id)))

/-- The `suffix_map` lookup of `remove_collection`. -/
def suffix_map (collection_name : String) : Option String :=
  match collection_name with
  | "ddl" => some "ddl"
  | "sql" => some "sql"
  | "documentation" => some "doc"
  | _ => none

/-- `remove_collection(collection_name)`: resolve the suffix (unknown
names return `False` immediately), then `DELETE ... WHERE
cmetadata->>'id' LIKE '%suffix'` inside a transaction; returns whether
at least one row was deleted, and `False` with a rollback when the
execute fails. -/
def remove_collection (fail : Bool) (db : List DbRow) (collection_name : String) :
    Bool × List DbRow :=
  match suffix_map collection_name with
  | none => (false, db)
  | some suffix =>
    if fail then (false, db)
    else
      (decide (0 < db.countP (fun r => likeEndsWith r.cmetadata_id suffix)),
        db.filter (fun r => !(likeEndsWith r.cmetadata_id suffix)))

/-- The suffix classification of `get_training_data`:
`"documentation" if custom_id[-3:] == "doc" else custom_id[-3:]`. -/
def training_data_type_of (custom_id : String) : String :=
  if pyTakeRight custom_id 3 == "doc" then "documentation" else pyTakeRight custom_id 3

/-- One exported row of `get_training_data`.  `question` and `content`
hold Python values (`none` models Python `None`); for ddl and
documentation rows `content` is the raw document string. -/
structure ProcessedRow where
  id : String
  question : Option PyLit
  content : Option PyLit
  training_data_type : String
deriving Repr

/-- Processing of one scanned row in `get_training_data`: classify by id
suffix; for a `sql` row decode the payload — a parse failure
(`ValueError`/`SyntaxError`) is caught and the row skipped, but a
payload that parses to a non-dict literal raises `AttributeError` from
`doc_dict.get`, which the source does not catch; `documentation` and
`ddl` rows export the raw document with a null question; an
unrecognized suffix skips the row. -/
def processRow (r : DbRow) : Except String (Option ProcessedRow) :=
  let t := training_data_type_of r.cmetadata_id
  if t == "sql" then
    match literalEval r.document with
    | none => .ok none
    | some (.dict es) =>
      .ok (some ⟨r.cmetadata_id, pyDictGet es "question", pyDictGet es "sql", t⟩)
    | some _ => .error "AttributeError: object has no attribute get"
  else if t == "documentation" || t == "ddl" then
    .ok (some ⟨r.cmetadata_id, none, some (.str r.document), t⟩)
  else .ok none

/-- `get_training_data()`: scan the whole table in order, process each
row, accumulate the kept rows; an uncaught error from a row aborts the
export. -/
def get_training_data : List DbRow → Except String (List ProcessedRow)
  | [] => .ok []
  | r :: rs =>
    match processRow r with
    | .error e => .error e
    | .ok none => get_training_data rs
    | .ok (some p) =>
      match get_training_data rs with
      | .ok l => .ok (p :: l)
      | .error e => .error e

/-! ### The chat completion adapter (`openai_chat.py`)

The completion collaborator is external: `submit_prompt` receives its
response as a value.  A response is an ordered list of choices, each
optionally carrying a plain `text` field (presence modelled by `some`)
and a conversational `message.content` (which may itself be Python
`None`). -/

/-- One role-tagged chat message. -/
structure ChatMessage where
  role : String
  content : String
deriving Repr, DecidableEq

/-- One choice of the collaborator's response. -/
structure Choice where
  text : Option String
  message_content : Option String
deriving Repr, DecidableEq

/-- The collaborator's response: an ordered list of choices. -/
structure ChatResponse where
  choices : List Choice
deriving Repr, DecidableEq

/-- The token estimate of `submit_prompt`: `len(message["content"]) / 4`
summed over the messages, in exact (rational) arithmetic as Python float
division of these small integers is exact enough for the claim. -/
def num_tokens_of (prompt : List ChatMessage) : ℚ :=
  prompt.foldl (fun acc m => acc + (m.content.length : ℚ) / 4) 0

/-- `generate_response(prompt, num_tokens)`: prints the token estimate
(diagnostic only) and calls the external client with the prompt; the
estimate is not part of the request, so the response is `api prompt`. -/
def generate_response (api : List ChatMessage → ChatResponse)
    (prompt : List ChatMessage) (_num_tokens : ℚ) : ChatResponse :=
  api prompt

/-- `submit_prompt(prompt)`: `None` and empty prompts raise; otherwise
the token estimate is computed, the collaborator is called, and the
first choice carrying a `text` field is returned, falling back to the
first choice's `message.content`; an empty choice list makes the
fallback raise `IndexError`. -/
def submit_prompt (api : List ChatMessage → ChatResponse)
    (prompt : Option (List ChatMessage)) : Except String (Option String) :=
  match prompt with
  | none => .error "Prompt is None"
  | some msgs =>
    if msgs.length == 0 then .error "Prompt is empty"
    else
      let response := generate_response api msgs (num_tokens_of msgs)
      match response.choices.find? (fun c => c.text.isSome) with
      | some c => .ok c.text
      | none =>
        match response.choices with
        | [] => .error "IndexError: list index out of range"
        | c :: _ => .ok c.message_content

end Vanna

namespace Vanna

/-! ### Helper lemmas: whitespace, hex digits, string-body parsing -/

theorem data_mk (l : List Char) : (String.mk l).data = l := rfl

theorem mk_data (s : String) : String.mk s.data = s := rfl

@[simp] theorem skipSpaces_nil : skipSpaces [] = [] := rfl

@[simp] theorem skipSpaces_dq (l : List Char) : skipSpaces ('"' :: l) = '"' :: l := rfl

@[simp] theorem skipSpaces_colon (l : List Char) : skipSpaces (':' :: l) = ':' :: l := rfl

@[simp] theorem skipSpaces_comma (l : List Char) : skipSpaces (',' :: l) = ',' :: l := rfl

@[simp] theorem skipSpaces_space (l : List Char) : skipSpaces (' ' :: l) = skipSpaces l := rfl

@[simp] theorem skipSpaces_rbrace (l : List Char) : skipSpaces (rbrace :: l) = rbrace :: l := rfl

@[simp] theorem skipSpaces_lbrace (l : List Char) : skipSpaces (lbrace :: l) = lbrace :: l := rfl

@[simp] theorem rbrace_beq_comma : (rbrace == ',') = false := rfl

@[simp] theorem rbrace_beq_rbrace : (rbrace == rbrace) = true := rfl

@[simp] theorem dq_beq_rbrace : (('"' : Char) == rbrace) = false := rfl

@[simp] theorem lbrace_beq_lbrace : (lbrace == lbrace) = true := rfl

theorem hexVal_hexDigitChar (n : Nat) (h : n < 16) : hexVal (hexDigitChar n) = some n := by
  have : ∀ m, m < 16 → hexVal (hexDigitChar m) = some m := by decide
  exact this n h

/-- Specification of the escape table: either a character is emitted
unescaped (and then it is none of the characters the parser treats
specially), or its escape sequence decodes back to exactly that
character. -/
theorem escapeJsonChar_spec (c : Char) :
    (escapeJsonChar c = [c] ∧ (c == '"') = false ∧ (c == '\\') = false ∧
      (c == '\n' || c == '\r') = false) ∨
    ∃ es, escapeJsonChar c = '\\' :: es ∧
      ∀ rest, parseEscape (es ++ rest) = some ([c], rest) := by
  unfold escapeJsonChar
  split_ifs with h1 h2 h3 h4 h5 h6 h7 h8
  · have hc : c = '"' := by simpa using h1
    subst hc
    exact Or.inr ⟨['"'], rfl, fun rest => by simp [parseEscape]⟩
  · have hc : c = '\\' := by simpa using h2
    subst hc
    exact Or.inr ⟨['\\'], rfl, fun rest => by simp [parseEscape]⟩
  · have hc : c = '\n' := by simpa using h3
    subst hc
    exact Or.inr ⟨['n'], rfl, fun rest => by simp [parseEscape]⟩
  · have hc : c = '\r' := by simpa using h4
    subst hc
    exact Or.inr ⟨['r'], rfl, fun rest => by simp [parseEscape]⟩
  · have hc : c = '\t' := by simpa using h5
    subst hc
    exact Or.inr ⟨['t'], rfl, fun rest => by simp [parseEscape]⟩
  · have hc : c = Char.ofNat 8 := by
      rw [← Char.ofNat_toNat c, show c.toNat = 8 by simpa using h6]
    subst hc
    exact Or.inr ⟨['b'], rfl, fun rest => by simp [parseEscape]⟩
  · have hc : c = Char.ofNat 12 := by
      rw [← Char.ofNat_toNat c, show c.toNat = 12 by simpa using h7]
    subst hc
    exact Or.inr ⟨['f'], rfl, fun rest => by simp [parseEscape]⟩
  · refine Or.inr ⟨['u', '0', '0', hexDigitChar (c.toNat / 16), hexDigitChar (c.toNat % 16)],
      rfl, fun rest => ?_⟩
    have e1 : hexVal (hexDigitChar (c.toNat / 16)) = some (c.toNat / 16) :=
      hexVal_hexDigitChar _ (by omega)
    have e2 : hexVal (hexDigitChar (c.toNat % 16)) = some (c.toNat % 16) :=
      hexVal_hexDigitChar _ (Nat.mod_lt _ (by norm_num))
    have e0 : hexVal '0' = some 0 := rfl
    simp [parseEscape, e0, e1, e2, Nat.div_add_mod, Char.ofNat_toNat]
  · refine Or.inl ⟨rfl, ?_, ?_, ?_⟩
    · simpa using h1
    · simpa using h2
    · have h3' : (c == '\n') = false := by simpa using h3
      have h4' : (c == '\r') = false := by simpa using h4
      simp [h3', h4']

/-- Parsing the escaped body of a JSON-encoded string recovers the
original characters; one unit of fuel per source character suffices. -/
theorem parseStrBody_escaped (cs : List Char) :
    ∀ (f : Nat) (tail : List Char),
      parseStrBody '"' (f + cs.length + 1) ((cs.map escapeJsonChar).flatten ++ '"' :: tail) =
        some (cs, tail) := by
  induction cs with
  | nil =>
    intro f tail
    simp [parseStrBody]
  | cons c cs ih =>
    intro f tail
    have harith : f + (c :: cs).length + 1 = (f + cs.length + 1) + 1 := by
      simp only [List.length_cons]
      omega
    rw [harith, List.map_cons, List.flatten_cons, List.append_assoc]
    rcases escapeJsonChar_spec c with ⟨he, hq, hbs, hnl⟩ | ⟨es, he, hpe⟩
    · rw [he]
      simp [parseStrBody, hq, hbs, hnl, ih f tail]
    · rw [he]
      simp [parseStrBody, hpe, ih f tail]

/-- Every character contributes at least one character to its escape. -/
theorem flatten_escape_ge (cs : List Char) :
    cs.length ≤ ((cs.map escapeJsonChar).flatten).length := by
  induction cs with
  | nil => simp
  | cons c cs ih =>
    simp only [List.map_cons, List.flatten_cons, List.length_append, List.length_cons]
    have h1 : 1 ≤ (escapeJsonChar c).length := by
      unfold escapeJsonChar
      split_ifs <;> simp
    omega

/-- The characters of a JSON-encoded string, in parser normal form. -/
theorem encodeJsonString_data (s : String) (rest : List Char) :
    (encodeJsonString s).data ++ rest =
      '"' :: ((s.data.map escapeJsonChar).flatten ++ '"' :: rest) := by
  have hq : ("\"" : String).data = ['"'] := rfl
  simp [encodeJsonString, String.data_append, hq, data_mk]

/-- Scalar parsing of a JSON-encoded string recovers the string. -/
theorem parseScalar_encode (s : String) (rest : List Char) :
    parseScalar ('"' :: ((s.data.map escapeJsonChar).flatten ++ '"' :: rest)) =
      some (.str s, rest) := by
  have hle : s.data.length ≤ ((s.data.map escapeJsonChar).flatten ++ '"' :: rest).length := by
    have := flatten_escape_ge s.data
    simp only [List.length_append, List.length_cons]
    omega
  have hfuel : ((s.data.map escapeJsonChar).flatten ++ '"' :: rest).length + 1 =
      (((s.data.map escapeJsonChar).flatten ++ '"' :: rest).length - s.data.length) +
        s.data.length + 1 := by
    omega
  simp only [parseScalar]
  rw [if_pos (by simp)]
  rw [hfuel, parseStrBody_escaped s.data _ rest]

/-- Scalar parsing of the encoded key `"question"`. -/
theorem parseScalar_question (rest : List Char) :
    parseScalar ('"' :: 'q' :: 'u' :: 'e' :: 's' :: 't' :: 'i' :: 'o' :: 'n' :: '"' :: rest) =
      some (.str "question", rest) := by
  have h := parseScalar_encode "question" rest
  have e : (("question".data.map escapeJsonChar)).flatten =
      ['q', 'u', 'e', 's', 't', 'i', 'o', 'n'] := rfl
  rw [e] at h
  simpa using h

/-- Scalar parsing of the encoded key `"sql"`. -/
theorem parseScalar_sqlkey (rest : List Char) :
    parseScalar ('"' :: 's' :: 'q' :: 'l' :: '"' :: rest) = some (.str "sql", rest) := by
  have h := parseScalar_encode "sql" rest
  have e : (("sql".data.map escapeJsonChar)).flatten = ['s', 'q', 'l'] := rfl
  rw [e] at h
  simpa using h

/-- Parsing the two entries of the serialized payload, starting right
after the opening brace. -/
theorem parseEntries_pair (q s : String) (rest : List Char) (f : Nat) :
    parseEntries (f + 1 + 1)
      ('"' :: 'q' :: 'u' :: 'e' :: 's' :: 't' :: 'i' :: 'o' :: 'n' :: '"' :: ':' :: ' ' ::
        ('"' :: ((q.data.map escapeJsonChar).flatten ++ '"' :: (',' :: ' ' ::
          ('"' :: 's' :: 'q' :: 'l' :: '"' :: ':' :: ' ' ::
            ('"' :: ((s.data.map escapeJsonChar).flatten ++ '"' :: (rbrace :: rest)))))))) =
      some ([("question", .str q), ("sql", .str s)], rest) := by
  simp only [parseEntries, skipSpaces_dq, parseScalar_question, skipSpaces_colon,
    skipSpaces_space, parseScalar_encode, skipSpaces_comma, parseScalar_sqlkey,
    skipSpaces_rbrace]
  simp

/-- `parseLit` on the exact serialization of the payload. -/
theorem parseLit_dumps (q s : String) :
    parseLit (dumpsQuestionSql q s).data =
      some (.dict [("question", .str q), ("sql", .str s)], []) := by
  have hd : (dumpsQuestionSql q s).data =
      lbrace :: ('"' :: 'q' :: 'u' :: 'e' :: 's' :: 't' :: 'i' :: 'o' :: 'n' :: '"' :: ':' :: ' ' ::
        ('"' :: ((q.data.map escapeJsonChar).flatten ++ '"' :: (',' :: ' ' ::
          ('"' :: 's' :: 'q' :: 'l' :: '"' :: ':' :: ' ' ::
            ('"' :: ((s.data.map escapeJsonChar).flatten ++ '"' :: (rbrace :: ([] : List Char))))))))) := by
    have e1 : (encodeJsonString "question").data =
        '"' :: 'q' :: 'u' :: 'e' :: 's' :: 't' :: 'i' :: 'o' :: 'n' :: ['"'] := rfl
    have e2 : (encodeJsonString "sql").data = '"' :: 's' :: 'q' :: 'l' :: ['"'] := rfl
    have e3 : ∀ t : String, (encodeJsonString t).data =
        '"' :: ((t.data.map escapeJsonChar).flatten ++ ['"']) := by
      intro t
      have := encodeJsonString_data t []
      simpa using this
    simp [dumpsQuestionSql, data_mk, e1, e2, e3 q, e3 s]
  rw [hd]
  simp only [parseLit, skipSpaces_lbrace, skipSpaces_dq, lbrace_beq_lbrace, if_true,
    dq_beq_rbrace, List.length_cons]
  simp only [Bool.false_eq_true, if_false, parseEntries_pair]

/-- `ast.literal_eval` is a left inverse of the payload serialization:
decoding the stored serialization of any `{question, sql}` pair
reconstructs exactly that pair. -/
theorem literalEval_dumps (q s : String) :
    literalEval (dumpsQuestionSql q s) =
      some (.dict [("question", .str q), ("sql", .str s)]) := by
  simp [literalEval, parseLit_dumps q s]

/-! ### Helper lemmas about ids and stores -/

/-- The last three characters of a string extended by a four-character
suffix are the suffix's last three characters. -/
theorem pyTakeRight_append_four (u : String) (a b c d : Char) :
    pyTakeRight (u ++ String.mk [a, b, c, d]) 3 = String.mk [b, c, d] := by
  unfold pyTakeRight
  rw [String.data_append, data_mk]
  have h : (u.data ++ [a, b, c, d]).length - 3 = u.data.length + 1 := by
    simp only [List.length_append, List.length_cons, List.length_nil]
    omega
  rw [h, List.drop_append 1]
  rfl

/-- Upserting a document whose id is absent appends it. -/
theorem addDocuments_fresh (coll : List Document) (d : Document)
    (h : ∀ x ∈ coll, x.id ≠ d.id) : addDocuments coll d = coll ++ [d] := by
  unfold addDocuments
  rw [if_neg]
  simp only [List.any_eq_true, beq_iff_eq, not_exists]
  intro x hx
  exact h x hx.1 hx.2

end Vanna

namespace Vanna

/-! ### Claim theorems -/

/-- Claim C1: every insert returns an id that is a pure deterministic
function of the serialized content followed by the collection suffix:
`add_question_sql` returns `Identity(payload) + "-sql"` where the
payload serializes `{question, sql}`, `add_ddl` returns
`Identity(ddl) + "-ddl"`, `add_documentation` returns
`Identity(text) + "-doc"`; the id does not depend on the store state
(so two identical inserts return the same id both times), and the last
three characters of every returned id are `sql`, `ddl`, `doc`
respectively. -/
theorem claim_C1_insert_ids :
    (∀ st q s, (add_question_sql st q s).1 =
      deterministic_uuid (dumpsQuestionSql q s) ++ "-sql") ∧
    (∀ st d, (add_ddl st d).1 = deterministic_uuid d ++ "-ddl") ∧
    (∀ st d, ( add_documentation st d).1 = deterministic_uuid d ++ "-doc") ∧
    (∀ st st' q s, (add_question_sql st q s).1 = (add_question_sql st' q s).1) ∧
    (∀ st st' d, (add_ddl st d).1 = (add_ddl st' d).1) ∧
    (∀ st st' d, ( add_documentation st d).1 = ( add_documentation st' d).1) ∧
    (∀ st q s, pyTakeRight (add_question_sql st q s).1 3 = "sql") ∧
    (∀ st d, pyTakeRight (add_ddl st d).1 3 = "ddl") ∧
    (∀ st d, pyTakeRight ( add_documentation st d).1 3 = "doc") := by
  refine ⟨fun _ _ _ => rfl, fun _ _ => rfl, fun _ _ => rfl,
    fun _ _ _ _ => rfl, fun _ _ _ => rfl, fun _ _ _ => rfl, ?_, ?_, ?_⟩
  · intro st q s
    have e : ("-sql" : String) = String.mk ['-', 's', 'q', 'l'] := rfl
    show pyTakeRight (deterministic_uuid (dumpsQuestionSql q s) ++ "-sql") 3 = "sql"
    rw [e, pyTakeRight_append_four]
  · intro st d
    have e : ("-ddl" : String) = String.mk ['-', 'd', 'd', 'l'] := rfl
    show pyTakeRight (deterministic_uuid d ++ "-ddl") 3 = "ddl"
    rw [e, pyTakeRight_append_four]
  · intro st d
    have e : ("-doc" : String) = String.mk ['-', 'd', 'o', 'c'] := rfl
    show pyTakeRight (deterministic_uuid d ++ "-doc") 3 = "doc"
    rw [e, pyTakeRight_append_four]

/-- Claim C8: collection resolution accepts exactly the three names
`sql`, `ddl`, `documentation`, returning the corresponding handle (a
pure function, so no state is mutated); every other input fails with
the invalid-collection error. -/
theorem claim_C8_get_collection :
    get_collection "sql" = .ok .sql ∧
    get_collection "ddl" = .ok .ddl ∧
    get_collection "documentation" = .ok .doc ∧
    ∀ name, name ∉ (["sql", "ddl", "documentation"] : List String) →
      get_collection name = .error (.invalidCollection "Specified collection does not exist.") := by
  refine ⟨rfl, rfl, rfl, ?_⟩
  intro name h
  simp only [List.mem_cons, List.not_mem_nil, or_false, not_or] at h
  obtain ⟨h1, h2, h3⟩ := h
  unfold get_collection
  rw [if_neg (by simpa using h1), if_neg (by simpa using h2), if_neg (by simpa using h3)]

/-- Witness for C8: a concrete unknown name is rejected. -/
theorem claim_C8_get_collection_witness :
    get_collection "tables" = .error (.invalidCollection "Specified collection does not exist.") :=
  claim_C8_get_collection.2.2.2 "tables" (by decide)

/-- Claim C10: the bulk paths classify records by the final three
characters of the id only, with no requirement of a preceding dash:
`get_training_data`'s classification maps any id ending in `sql`, `ddl`
to those types and `doc` to `documentation`, and `remove_collection`
deletes every row whose id merely ends with the three-character suffix,
so an id like `xyzsql` belongs to the sql collection for both
operations. -/
theorem claim_C10_suffix_only (id : String) :
    (pyTakeRight id 3 = "sql" →
      training_data_type_of id = "sql" ∧
      likeEndsWith id "sql" = true ∧
      ∀ (doc : String) (db : List DbRow), (⟨id, doc⟩ : DbRow) ∈ db →
        (⟨id, doc⟩ : DbRow) ∉ (remove_collection false db "sql").2) ∧
    (pyTakeRight id 3 = "ddl" → training_data_type_of id = "ddl") ∧
    (pyTakeRight id 3 = "doc" → training_data_type_of id = "documentation") := by
  refine ⟨?_, ?_, ?_⟩
  · intro h
    have hlike : likeEndsWith id "sql" = true := by
      have e : ("sql" : String).data.length = 3 := rfl
      unfold likeEndsWith
      rw [e, h]
      rfl
    refine ⟨?_, hlike, ?_⟩
    · unfold training_data_type_of
      rw [h]
      rfl
    · intro doc db hmem
      have hs : suffix_map "sql" = some "sql" := rfl
      unfold remove_collection
      rw [hs]
      simp only [if_neg (by simp : ¬(false = true))]
      intro hcontra
      rw [List.mem_filter] at hcontra
      rcases hcontra with ⟨_, hp⟩
      rw [hlike] at hp
      simp at hp
  · intro h
    unfold training_data_type_of
    rw [h]
    rfl
  · intro h
    unfold training_data_type_of
    rw [h]
    rfl

/-- Witness for C10: the dashless id `xyzsql` is classified as sql and
deleted by `remove_collection("sql")`. -/
theorem claim_C10_suffix_only_witness :
    training_data_type_of "xyzsql" = "sql" ∧
    likeEndsWith "xyzsql" "sql" = true ∧
    (⟨"xyzsql", "d"⟩ : DbRow) ∉ (remove_collection false [⟨"xyzsql", "d"⟩] "sql").2 := by
  have h := (claim_C10_suffix_only "xyzsql").1 (by decide)
  exact ⟨h.1, h.2.1, h.2.2 "d" [⟨"xyzsql", "d"⟩] (by simp)⟩

/-- Claim C3: `remove_training_data(id)` returns true iff a record
addressed by that id was actually removed: for a nonexistent id it
returns false with the table unchanged and without raising, and on any
underlying failure the transaction rolls back (the table is unchanged)
and false is returned instead of an exception; afterwards no row with
that id remains. -/
theorem claim_C3_remove_training_data (fail : Bool) (db : List DbRow) (id : String) :
    ((remove_training_data fail db id).1 = true ↔
      fail = false ∧ ∃ r ∈ db, r.cmetadata_id = id) ∧
    ((∀ r ∈ db, r.cmetadata_id ≠ id) → remove_training_data fail db id = (false, db)) ∧
    (fail = true → remove_training_data fail db id = (false, db)) ∧
    (fail = false → ∀ r ∈ (remove_training_data fail db id).2, r.cmetadata_id ≠ id) := by
  unfold remove_training_data
  cases fail with
  | true => simp
  | false =>
    refine ⟨?_, ?_, ?_, ?_⟩
    · simp [List.countP_pos_iff]
    · intro h
      have h1 : db.countP (fun r => r.cmetadata_id == id) = 0 := by
        rw [List.countP_eq_zero]
        intro r hr
        simp [h r hr]
      have h2 : db.filter (fun r => !(r.cmetadata_id == id)) = db := by
        rw [List.filter_eq_self]
        intro r hr
        simp [h r hr]
      simp [h1, h2]
    · intro h
      exact absurd h (by simp)
    · intro _ r hr
      simp only [if_neg (by simp : ¬(false = true))] at hr
      rw [List.mem_filter] at hr
      simpa using hr.2

/-- Witness for C3: deleting an existing id returns true, a missing id
returns false with the table unchanged, and a failed execute rolls
back. -/
theorem claim_C3_remove_training_data_witness :
    (remove_training_data false [⟨"a-sql", "x"⟩] "a-sql").1 = true ∧
    remove_training_data false [⟨"a-sql", "x"⟩] "b-ddl" = (false, [⟨"a-sql", "x"⟩]) ∧
    remove_training_data true [⟨"a-sql", "x"⟩] "a-sql" = (false, [⟨"a-sql", "x"⟩]) := by
  refine ⟨?_, ?_, ?_⟩
  · exact (claim_C3_remove_training_data false [⟨"a-sql", "x"⟩] "a-sql").1.mpr
      ⟨rfl, ⟨"a-sql", "x"⟩, by simp, rfl⟩
  · exact (claim_C3_remove_training_data false [⟨"a-sql", "x"⟩] "b-ddl").2.1
      (by intro r hr; simp at hr; simp [hr])
  · exact (claim_C3_remove_training_data true [⟨"a-sql", "x"⟩] "a-sql").2.2.1 rfl

/-- Claim C6: for each of the three collection names,
`remove_collection` deletes exactly and only the rows whose id ends with
the matching suffix (`sql`→sql, `ddl`→ddl, `documentation`→doc), leaving
rows carrying either of the other two suffixes untouched; it returns
false on an underlying error (with the transaction rolled back, never
raising) and on zero matching rows, and true only when at least one row
was deleted. -/
theorem claim_C6_remove_collection (fail : Bool) (db : List DbRow)
    (name suffix : String) (hmap : suffix_map name = some suffix) :
    ((remove_collection fail db name).1 = true ↔
      fail = false ∧ ∃ r ∈ db, likeEndsWith r.cmetadata_id suffix = true) ∧
    (fail = false → ∀ r, r ∈ (remove_collection fail db name).2 ↔
      r ∈ db ∧ likeEndsWith r.cmetadata_id suffix = false) ∧
    (fail = true → remove_collection fail db name = (false, db)) ∧
    (fail = false → ∀ r ∈ db, ∀ sfx2 ∈ (["sql", "ddl", "doc"] : List String),
      sfx2 ≠ suffix → pyTakeRight r.cmetadata_id 3 = sfx2 →
      r ∈ (remove_collection fail db name).2) := by
  have hsfx : suffix = "ddl" ∨ suffix = "sql" ∨ suffix = "doc" := by
    unfold suffix_map at hmap
    split at hmap <;> simp_all
  unfold remove_collection
  rw [hmap]
  cases fail with
  | true => simp
  | false =>
    refine ⟨?_, ?_, ?_, ?_⟩
    · simp [List.countP_pos_iff]
    · intro _ r
      simp [List.mem_filter]
    · intro h
      exact absurd h (by simp)
    · intro _ r hr sfx2 hsfx2 hne h3
      have hlen : suffix.data.length = 3 := by
        rcases hsfx with h | h | h <;> (subst h; rfl)
      have hlike : likeEndsWith r.cmetadata_id suffix = false := by
        unfold likeEndsWith
        rw [hlen, h3]
        simpa using hne
      simp only [if_neg (by simp : ¬(false = true))]
      rw [List.mem_filter]
      exact ⟨hr, by simp [hlike]⟩

/-- Witness for C6: removing the ddl collection deletes the ddl row,
keeps the sql and documentation rows, returns true when something was
deleted, false on a failed execute. -/
theorem claim_C6_remove_collection_witness :
    (remove_collection false [⟨"a-ddl", "x"⟩, ⟨"b-sql", "y"⟩, ⟨"c-doc", "z"⟩] "ddl").1 = true ∧
    ((⟨"b-sql", "y"⟩ : DbRow) ∈
      (remove_collection false [⟨"a-ddl", "x"⟩, ⟨"b-sql", "y"⟩, ⟨"c-doc", "z"⟩] "ddl").2) ∧
    ((⟨"a-ddl", "x"⟩ : DbRow) ∉
      (remove_collection false [⟨"a-ddl", "x"⟩, ⟨"b-sql", "y"⟩, ⟨"c-doc", "z"⟩] "ddl").2) ∧
    remove_collection true [⟨"a-ddl", "x"⟩] "ddl" = (false, [⟨"a-ddl", "x"⟩]) := by
  have h := claim_C6_remove_collection false
    [⟨"a-ddl", "x"⟩, ⟨"b-sql", "y"⟩, ⟨"c-doc", "z"⟩] "ddl" "ddl" rfl
  refine ⟨?_, ?_, ?_, ?_⟩
  · exact h.1.mpr ⟨rfl, ⟨"a-ddl", "x"⟩, by simp, by decide⟩
  · exact (h.2.1 rfl ⟨"b-sql", "y"⟩).mpr ⟨by simp, by decide⟩
  · intro hc
    have := (h.2.1 rfl ⟨"a-ddl", "x"⟩).mp hc
    have hbad : likeEndsWith "a-ddl" "ddl" = true := by decide
    rw [hbad] at this
    simp at this
  · exact (claim_C6_remove_collection true [⟨"a-ddl", "x"⟩] "ddl" "ddl" rfl).2.2.1 rfl

/-- Claim C2: `train` executes exactly one branch, in the source's
priority order: question and sql together store the pair and return its
id; otherwise documentation is stored; otherwise sql alone synthesizes a
question through the completion collaborator and stores the pair;
otherwise ddl is stored; otherwise a question alone raises
`ValidationError`; and `train()` with no arguments is a no-op returning
no id.  "Given" is Python truthiness: a `None` or empty-string argument
does not select a branch. -/
theorem claim_C2_train_dispatch (gen : String → String) (st : Store)
    (question sql ddl documentation : Option String) (plan : Option TrainingPlan) :
    ((truthy sql && truthy question) = true →
      train gen st question sql ddl documentation plan =
        .ok (some (add_question_sql st (question.getD "") (sql.getD "")).1,
          (add_question_sql st (question.getD "") (sql.getD "")).2)) ∧
    ((truthy sql && truthy question) = false → truthy documentation = true →
      train gen st question sql ddl documentation plan =
        .ok (some ( add_documentation st ( documentation.getD "")).1,
          ( add_documentation st ( documentation.getD "")).2)) ∧
    ((truthy sql && truthy question) = false → truthy documentation = false →
      truthy sql = true →
      train gen st question sql ddl documentation plan =
        .ok (some (add_question_sql st (gen (sql.getD "")) (sql.getD "")).1,
          (add_question_sql st (gen (sql.getD "")) (sql.getD "")).2)) ∧
    ((truthy sql && truthy question) = false → truthy documentation = false →
      truthy sql = false → truthy ddl = true →
      train gen st question sql ddl documentation plan =
        .ok (some (add_ddl st (ddl.getD "")).1, (add_ddl st (ddl.getD "")).2)) ∧
    ((truthy sql && truthy question) = false → truthy documentation = false →
      truthy sql = false → truthy ddl = false → truthy question = true →
      train gen st question sql ddl documentation plan =
        .error (.validation "Please provide a SQL query.")) ∧
    train gen st none none none none none = .ok (none, st) := by
  refine ⟨?_, ?_, ?_, ?_, ?_, rfl⟩ <;> (intros; simp_all [train])

/-- Witness for C2: the pair branch fires for a truthy question and sql,
a bare question raises the validation error. -/
theorem claim_C2_train_dispatch_witness :
    train (fun _ => "G") (Store.mk [] [] []) (some "Q") (some "S") none none none =
      .ok (some (add_question_sql (Store.mk [] [] []) "Q" "S").1,
        (add_question_sql (Store.mk [] [] []) "Q" "S").2) ∧
    train (fun _ => "G") (Store.mk [] [] []) (some "Q") none none none none =
      .error (.validation "Please provide a SQL query.") := by
  constructor
  · exact (claim_C2_train_dispatch (fun _ => "G") (Store.mk [] [] [])
      (some "Q") (some "S") none none none).1 (by decide)
  · exact (claim_C2_train_dispatch (fun _ => "G") (Store.mk [] [] [])
      (some "Q") none none none none).2.2.2.2.1 (by decide) (by decide) (by decide)
      (by decide) (by decide)

/-- Claim C7: replaying a training plan dispatches each item by type in
one pass: a DDL item is stored via `add_ddl`, a documentation item via
`add_documentation`, a SQL item with a truthy name via
`add_question_sql(question=item_name, sql=item_value)`, and a SQL item
with an empty name is silently skipped; a plan with one DDL item, one
documentation item and one named SQL item yields exactly one new record
in each collection, with no cross-collection leakage. -/
theorem claim_C7_plan_replay (st : Store) (d c n v : String)
    (hn : truthy (some n) = true)
    (h1 : ∀ x ∈ st.ddl_collection, x.id ≠ deterministic_uuid d ++ "-ddl")
    (h2 : ∀ x ∈ st.documentation_collection, x.id ≠ deterministic_uuid c ++ "-doc")
    (h3 : ∀ x ∈ st.sql_collection, x.id ≠ deterministic_uuid (dumpsQuestionSql n v) ++ "-sql") :
    (applyPlan st ⟨[⟨.ddl, none, d⟩, ⟨.is, none, c⟩, ⟨.sql, some n, v⟩]⟩ =
      { sql_collection := st.sql_collection ++
          [⟨dumpsQuestionSql n v, deterministic_uuid (dumpsQuestionSql n v) ++ "-sql"⟩],
        ddl_collection := st.ddl_collection ++ [⟨d, deterministic_uuid d ++ "-ddl"⟩],
        documentation_collection := st.documentation_collection ++
          [⟨c, deterministic_uuid c ++ "-doc"⟩] }) ∧
    (∀ st₀ nm v₀, truthy nm = false → applyPlanItem st₀ ⟨.sql, nm, v₀⟩ = st₀) := by
  constructor
  · simp only [applyPlan, List.foldl_cons, List.foldl_nil, applyPlanItem, add_ddl,
      add_documentation, add_question_sql, hn, if_pos, Option.getD_some]
    rw [addDocuments_fresh st.ddl_collection ⟨d, deterministic_uuid d ++ "-ddl"⟩ h1,
      addDocuments_fresh st.documentation_collection ⟨c, deterministic_uuid c ++ "-doc"⟩ h2,
      addDocuments_fresh st.sql_collection
        ⟨dumpsQuestionSql n v, deterministic_uuid (dumpsQuestionSql n v) ++ "-sql"⟩ h3]
  · intro st₀ nm v₀ h
    simp [applyPlanItem, h]

/-- Witness for C7: replaying a three-item plan into an empty store
yields exactly one record per collection. -/
theorem claim_C7_plan_replay_witness :
    applyPlan (Store.mk [] [] [])
        ⟨[⟨.ddl, none, "CREATE TABLE t(x int)"⟩, ⟨.is, none, "docs"⟩,
          ⟨.sql, some "Q", "SELECT 1"⟩]⟩ =
      { sql_collection :=
          [⟨dumpsQuestionSql "Q" "SELECT 1",
            deterministic_uuid (dumpsQuestionSql "Q" "SELECT 1") ++ "-sql"⟩],
        ddl_collection :=
          [⟨"CREATE TABLE t(x int)", deterministic_uuid "CREATE TABLE t(x int)" ++ "-ddl"⟩],
        documentation_collection :=
          [⟨"docs", deterministic_uuid "docs" ++ "-doc"⟩] } :=
  (claim_C7_plan_replay (Store.mk [] [] []) "CREATE TABLE t(x int)" "docs" "Q" "SELECT 1"
    (by decide) (by simp) (by simp) (by simp)).1

/-- The folded token estimate equals the total character count divided
by four. -/
theorem num_tokens_of_eq (msgs : List ChatMessage) :
    num_tokens_of msgs = ((msgs.map (fun m => (m.content.length : ℚ))).sum) / 4 := by
  have key : ∀ (l : List ChatMessage) (acc : ℚ),
      l.foldl (fun a m => a + (m.content.length : ℚ) / 4) acc =
        acc + ((l.map (fun m => (m.content.length : ℚ))).sum) / 4 := by
    intro l
    induction l with
    | nil => intro acc; simp
    | cons m ms ih =>
      intro acc
      simp only [List.foldl_cons, List.map_cons, List.sum_cons, ih]
      ring
  simpa [num_tokens_of] using key msgs 0

/-- Claim C9: `submit_prompt` fails with an input error when the message
sequence is absent or empty; it computes a token estimate equal to the
total character count divided by four, used only for diagnostics with no
effect on the result; and it returns the first choice that carries plain
text, falling back to the first choice's conversational content only
when no choice carries plain text. -/
theorem claim_C9_submit_prompt (api : List ChatMessage → ChatResponse) :
    submit_prompt api none = .error "Prompt is None" ∧
    submit_prompt api (some []) = .error "Prompt is empty" ∧
    (∀ msgs, num_tokens_of msgs =
      ((msgs.map (fun m => (m.content.length : ℚ))).sum) / 4) ∧
    (∀ prompt t₁ t₂, generate_response api prompt t₁ = generate_response api prompt t₂) ∧
    (∀ msgs c, msgs.length ≠ 0 →
      (api msgs).choices.find? (fun ch => ch.text.isSome) = some c →
      submit_prompt api (some msgs) = .ok c.text) ∧
    (∀ msgs c cs, msgs.length ≠ 0 →
      (api msgs).choices.find? (fun ch => ch.text.isSome) = none →
      (api msgs).choices = c :: cs →
      submit_prompt api (some msgs) = .ok c.message_content) := by
  refine ⟨rfl, rfl, num_tokens_of_eq, fun _ _ _ => rfl, ?_, ?_⟩
  · intro msgs c h hf
    have hlen : (msgs.length == 0) = false := by simpa using h
    simp [submit_prompt, hlen, generate_response, hf]
  · intro msgs c cs h hf hcons
    have hlen : (msgs.length == 0) = false := by simpa using h
    rw [hcons] at hf
    simp [submit_prompt, hlen, generate_response, hcons, hf]

/-- Witness for C9: with a response whose first choice has no text and
whose second does, the second choice's text wins; with no text anywhere,
the first choice's conversational content is returned. -/
theorem claim_C9_submit_prompt_witness :
    submit_prompt (fun _ => ⟨[⟨none, some "conv"⟩, ⟨some "T", none⟩]⟩)
      (some [⟨"user", "hi"⟩]) = .ok (some "T") ∧
    submit_prompt (fun _ => ⟨[⟨none, some "conv"⟩, ⟨none, some "other"⟩]⟩)
      (some [⟨"user", "hi"⟩]) = .ok (some "conv") := by
  constructor
  · exact (claim_C9_submit_prompt
      (fun _ => ⟨[⟨none, some "conv"⟩, ⟨some "T", none⟩]⟩)).2.2.2.2.1
      [⟨"user", "hi"⟩] ⟨some "T", none⟩ (by decide) rfl
  · exact (claim_C9_submit_prompt
      (fun _ => ⟨[⟨none, some "conv"⟩, ⟨none, some "other"⟩]⟩)).2.2.2.2.2
      [⟨"user", "hi"⟩] ⟨none, some "conv"⟩ [⟨none, some "other"⟩] (by decide) rfl rfl

/-- The upserted document is always a member of the updated
collection. -/
theorem addDocuments_mem (coll : List Document) (d : Document) :
    d ∈ addDocuments coll d := by
  unfold addDocuments
  by_cases h : coll.any (fun x => x.id == d.id) = true
  · rw [if_pos h]
    rw [List.any_eq_true] at h
    obtain ⟨x, hx, hid⟩ := h
    rw [List.mem_map]
    exact ⟨x, hx, by rw [if_pos hid]⟩
  · rw [if_neg h]
    simp

/-- Claim C4: a similarity query on the sql collection deserializes each
retrieved payload back into the `{question, sql}` structure — decoding
the stored serialization is a left inverse of the encoding, so the
record stored by `add_question_sql` reconstructs exactly — and a
payload that fails to deserialize propagates as an error out of
`get_similar_question_sql` instead of a partial structure being
returned. -/
theorem claim_C4_retrieval_roundtrip :
    (∀ q s id, get_similar_question_sql [⟨dumpsQuestionSql q s, id⟩] =
      .ok [.dict [("question", .str q), ("sql", .str s)]]) ∧
    (∀ st q s,
      (⟨dumpsQuestionSql q s, deterministic_uuid (dumpsQuestionSql q s) ++ "-sql"⟩ : Document) ∈
        (add_question_sql st q s).2.sql_collection) ∧
    (∀ docs d, d ∈ docs → literalEval d.page_content = none →
      ∃ e, get_similar_question_sql docs = .error e) := by
  refine ⟨?_, ?_, ?_⟩
  · intro q s id
    simp [get_similar_question_sql, literalEval_dumps]
  · intro st q s
    exact addDocuments_mem st.sql_collection _
  · intro docs d hmem hbad
    induction docs with
    | nil => simp at hmem
    | cons x xs ih =>
      rcases List.mem_cons.mp hmem with h | h
      · subst h
        unfold get_similar_question_sql
        simp only [List.foldr_cons]
        rw [hbad]
        exact ⟨_, rfl⟩
      · obtain ⟨e, he⟩ := ih h
        unfold get_similar_question_sql at he ⊢
        simp only [List.foldr_cons]
        rw [he]
        rcases hx : literalEval x.page_content with _ | v
        · exact ⟨_, rfl⟩
        · exact ⟨e, rfl⟩

/-- Witness for C4: the stored serialization of a concrete pair
reconstructs exactly, and a malformed payload turns the whole query
into an error. -/
theorem claim_C4_retrieval_roundtrip_witness :
    get_similar_question_sql [⟨dumpsQuestionSql "Q" "SELECT 1", "i-sql"⟩] =
      .ok [.dict [("question", .str "Q"), ("sql", .str "SELECT 1")]] ∧
    ∃ e, get_similar_question_sql [⟨"not a literal", "i-sql"⟩] = .error e := by
  constructor
  · exact claim_C4_retrieval_roundtrip.1 "Q" "SELECT 1" "i-sql"
  · exact claim_C4_retrieval_roundtrip.2.2 [⟨"not a literal", "i-sql"⟩]
      ⟨"not a literal", "i-sql"⟩ (by simp) (by rfl)

/-- Any row emitted by `processRow` carries one of the three training
data types, and a null question unless it is a sql row. -/
theorem processRow_shape (r : DbRow) (p : ProcessedRow)
    (h : processRow r = .ok (some p)) :
    (p.training_data_type = "sql" ∨ p.training_data_type = "ddl" ∨
      p.training_data_type = "documentation") ∧
    (p.training_data_type ≠ "sql" → p.question = none) := by
  unfold processRow at h
  by_cases h1 : (training_data_type_of r.cmetadata_id == "sql") = true
  · rw [if_pos h1] at h
    rcases hl : literalEval r.document with _ | v
    · rw [hl] at h
      simp at h
    · rw [hl] at h
      cases v with
      | str s => simp at h
      | int n => simp at h
      | dict es =>
        simp only [Except.ok.injEq, Option.some.injEq] at h
        subst h
        refine ⟨Or.inl (by simpa using h1), fun hne => absurd (by simpa using h1) hne⟩
  · rw [if_neg h1] at h
    by_cases h2 : (training_data_type_of r.cmetadata_id == "documentation" ||
        training_data_type_of r.cmetadata_id == "ddl") = true
    · rw [if_pos h2] at h
      simp only [Except.ok.injEq, Option.some.injEq] at h
      subst h
      constructor
      · rw [Bool.or_eq_true] at h2
        rcases h2 with h2 | h2
        · exact Or.inr (Or.inr (by simpa using h2))
        · exact Or.inr (Or.inl (by simpa using h2))
      · intro _
        rfl
    · rw [if_neg h2] at h
      simp at h

/-- Every exported row of `get_training_data` has the documented
shape. -/
theorem get_training_data_shape (db : List DbRow) :
    ∀ out, get_training_data db = .ok out → ∀ p ∈ out,
      (p.training_data_type = "sql" ∨ p.training_data_type = "ddl" ∨
        p.training_data_type = "documentation") ∧
      (p.training_data_type ≠ "sql" → p.question = none) := by
  induction db with
  | nil =>
    intro out h p hp
    simp only [get_training_data, Except.ok.injEq] at h
    subst h
    simp at hp
  | cons r rs ih =>
    intro out h p hp
    unfold get_training_data at h
    rcases hr : processRow r with e | o
    · simp only [hr] at h
      exact absurd h (by simp)
    · cases o with
      | none =>
        simp only [hr] at h
        exact ih out h p hp
      | some p' =>
        simp only [hr] at h
        rcases hrs : get_training_data rs with e | l
        · simp only [hrs] at h
          exact absurd h (by simp)
        · simp only [hrs, Except.ok.injEq] at h
          subst h
          rcases List.mem_cons.mp hp with hp | hp
          · subst hp
            exact processRow_shape r p hr
          · exact ih l hrs p hp

/-- Counterexample to claim C5 as stated: `get_training_data` can raise
on a malformed corpus.  A sql-suffixed row whose payload is the literal
`5` passes `ast.literal_eval` (only `ValueError`/`SyntaxError` are
caught) and then `doc_dict.get("question")` raises an uncaught
`AttributeError`, aborting the whole export instead of skipping the
row. -/
theorem claim_C5_counterexample :
    get_training_data [⟨"a-sql", dumpsQuestionSql "Q" "SELECT 1"⟩, ⟨"b-sql", "5"⟩] =
      .error "AttributeError: object has no attribute get" := by
  rfl

/-- Claim C5 (amended): rows with unrecognized id suffixes and
sql-suffixed rows whose payload fails to parse as a literal are skipped
while the remaining rows are exported, each with type `sql`, `ddl` or
`documentation` and a null question for non-sql rows (a sql row whose
payload parses to a non-dict literal still raises); a corpus with one
well-formed sql row, one unrecognized-suffix row and one unparseable
sql row exports exactly the well-formed row. -/
theorem claim_C5_amended_export :
    (∀ db out, get_training_data db = .ok out → ∀ p ∈ out,
      (p.training_data_type = "sql" ∨ p.training_data_type = "ddl" ∨
        p.training_data_type = "documentation") ∧
      (p.training_data_type ≠ "sql" → p.question = none)) ∧
    get_training_data [⟨"a-sql", dumpsQuestionSql "Q" "SELECT 1"⟩,
        ⟨"weird", "x"⟩, ⟨"d-sql", "not a literal"⟩] =
      .ok [⟨"a-sql", some (.str "Q"), some (.str "SELECT 1"), "sql"⟩] := by
  exact ⟨fun db => get_training_data_shape db, rfl⟩

/-- Witness for C5 (amended): the shape property evaluated on a concrete
one-row ddl corpus. -/
theorem claim_C5_amended_export_witness :
    ((⟨"c-ddl", none, some (.str "CREATE"), "ddl"⟩ : ProcessedRow).training_data_type = "sql" ∨
      (⟨"c-ddl", none, some (.str "CREATE"), "ddl"⟩ : ProcessedRow).training_data_type = "ddl" ∨
      (⟨"c-ddl", none, some (.str "CREATE"), "ddl"⟩ : ProcessedRow).training_data_type =
        "documentation") ∧
    ((⟨"c-ddl", none, some (.str "CREATE"), "ddl"⟩ : ProcessedRow).training_data_type ≠ "sql" →
      (⟨"c-ddl", none, some (.str "CREATE"), "ddl"⟩ : ProcessedRow).question = none) :=
  claim_C5_amended_export.1 [⟨"c-ddl", "CREATE"⟩]
    [⟨"c-ddl", none, some (.str "CREATE"), "ddl"⟩] rfl
    ⟨"c-ddl", none, some (.str "CREATE"), "ddl"⟩ (by simp)

end Vanna
